import Mathlib

/-!
Shallow embedding of the `stated-scope-guard` Rust crate.

The crate defines `ScopeGuard<T, S, F>` (src/lib.rs) holding `value: Option<T>`,
`state: S`, `callback: Option<F>` where `F: FnOnce(T, &S)`.  Operations:
`new`, `set_state`, `Deref`, `DerefMut`, and a `Drop` impl that takes both
slots (via `Option::take().unwrap_unchecked()`) and calls `callback(value, &state)`.
Two wrappers (src/dismissable.rs, src/dismissible.rs) instantiate `S = bool`
with a callback that only forwards to the caller's closure when the state is
still `true`.

Modelling decisions:
  - The fallible parts (the unchecked unwraps of the `Option` slots) are
    embedded as `Option`-returning operations; `none` models reaching the
    empty-slot branch that the Rust code marks unreachable with
    `unwrap_unchecked`.
  - An `FnOnce(T, &S)` callback is embedded as a pure function `T → S → R`
    for an abstract result type `R`; a callback invocation is recorded as an
    `Invocation` event carrying the arguments it received and its result.
    Every operation returns, next to its result, the list of callback
    invocations it performed: the live operations perform none (their Rust
    bodies contain no call of the callback), `drop` performs exactly one.
  - For the dismissable/dismissible wrappers the caller's closure
    `c : Unit → A` (resp. `T → A`) is wrapped with result type `Option A`:
    `some (c …)` on the branch that calls it, `none` on the no-op branch,
    so whether the caller's closure ran is observable in the drop event.
-/

namespace StatedScopeGuard

/-- Embedding of `ScopeGuard<T, S, F>` from src/lib.rs: `value: Option<T>`,
`state: S`, `callback: Option<F>`, with `F: FnOnce(T, &S)` embedded as
`T → S → R`. -/
structure ScopeGuard (T S R : Type) where
  value : Option T
  state : S
  callback : Option (T → S → R)

/-- One callback invocation: the value and state the callback received, and
the result it produced. -/
structure Invocation (T S R : Type) where
  value : T
  state : S
  result : R
deriving Repr, DecidableEq

variable {T S R A : Type}

/-- Embeds `ScopeGuard::new(value, state, callback)`: wraps `value` and
`callback` in `Some`, stores `state` as given. -/
def ScopeGuard.new (value : T) (state : S) (callback : T → S → R) :
    ScopeGuard T S R :=
  { value := some value, state := state, callback := some callback }

/-- Embeds `ScopeGuard::set_state(&mut self, state)`: `self.state = state;`
and nothing else. -/
def ScopeGuard.set_state (g : ScopeGuard T S R) (state : S) : ScopeGuard T S R :=
  { g with state := state }

/-- Embeds `Deref for ScopeGuard`: `self.value.as_ref().unwrap_unchecked()`.
The unchecked unwrap is modelled by returning the `Option` itself:
`none` is the branch the source marks unreachable. -/
def ScopeGuard.deref (g : ScopeGuard T S R) : Option T :=
  g.value

/-- Embeds `DerefMut for ScopeGuard`: `self.value.as_mut().unwrap_unchecked()`.
A mutation through the returned `&mut T` is modelled as applying a function
`f : T → T` to the occupied slot; `none` is the unreachable empty-slot
branch. -/
def ScopeGuard.deref_mut (g : ScopeGuard T S R) (f : T → T) :
    Option (ScopeGuard T S R) :=
  match g.value with
  | some v => some { g with value := some (f v) }
  | none => none

/-- Embeds `Drop for ScopeGuard`: take `value` and `callback` out of their slots
(both unchecked unwraps, `none` result = unreachable branch) and call
`callback(value, &self.state)`.  Returns the emptied guard and the single
invocation event performed. -/
def ScopeGuard.drop (g : ScopeGuard T S R) :
    Option (ScopeGuard T S R × List (Invocation T S R)) :=
  match g.value, g.callback with
  | some v, some c =>
      some ({ value := none, state := g.state, callback := none },
            [⟨v, g.state, c v g.state⟩])
  | _, _ => none

/-- The operations available on a live guard (everything public except
construction and the implicit drop): `set_state`, a read through `Deref`,
and a mutation through `DerefMut`. -/
inductive LiveOp (T S : Type) where
  | setState (s : S)
  | read
  | mutate (f : T → T)

/-- Run one live operation.  Next to the resulting guard it returns the
list of callback invocations the operation performed — empty in every case,
because none of the live operations' bodies in src/lib.rs call the
callback; `read` can fail only on the empty-slot branch of `Deref`. -/
def applyOp (g : ScopeGuard T S R) :
    LiveOp T S → Option (ScopeGuard T S R × List (Invocation T S R))
  | .setState s => some (g.set_state s, [])
  | .read =>
      match g.deref with
      | some _ => some (g, [])
      | none => none
  | .mutate f =>
      match g.deref_mut f with
      | some g2 => some (g2, [])
      | none => none

/-- Run a sequence of live operations, accumulating the callback
invocations performed along the way. -/
def runOps (g : ScopeGuard T S R) :
    List (LiveOp T S) → Option (ScopeGuard T S R × List (Invocation T S R))
  | [] => some (g, [])
  | op :: ops =>
      match applyOp g op with
      | some (g2, evs) =>
          match runOps g2 ops with
          | some (g3, evs2) => some (g3, evs ++ evs2)
          | none => none
      | none => none

/-- A full guard lifecycle: construct with `new`, run the live operations,
then drop.  Returns the complete list of callback invocations performed
over the whole lifetime. -/
def lifecycle (v : T) (s : S) (c : T → S → R) (ops : List (LiveOp T S)) :
    Option (List (Invocation T S R)) :=
  match runOps (ScopeGuard.new v s c) ops with
  | some (g, evs) =>
      match g.drop with
      | some (_, evs2) => some (evs ++ evs2)
      | none => none
  | none => none

/-- The value held by the guard after running `ops` from initial value `v`:
the initial value with every `mutate` function applied in order. -/
def finalValue (v : T) : List (LiveOp T S) → T
  | [] => v
  | .setState _ :: ops => finalValue v ops
  | .read :: ops => finalValue v ops
  | .mutate f :: ops => finalValue (f v) ops

/-- The state held by the guard after running `ops` from initial state `s`:
the argument of the last `setState`, or `s` if there is none. -/
def finalState (s : S) : List (LiveOp T S) → S
  | [] => s
  | .setState s2 :: ops => finalState s2 ops
  | .read :: ops => finalState s ops
  | .mutate _ :: ops => finalState s ops

/-- The arguments of the `setState` operations in `ops`, in order. -/
def statesSet : List (LiveOp T S) → List S
  | [] => []
  | .setState s :: ops => s :: statesSet ops
  | .read :: ops => statesSet ops
  | .mutate _ :: ops => statesSet ops

/-- Key invariant: starting from a fully occupied guard, any sequence of
live operations succeeds, performs no callback invocation, leaves both
slots occupied with the callback unchanged, and tracks `finalValue` /
`finalState`. -/
theorem runOps_occupied (v : T) (s : S) (c : T → S → R)
    (ops : List (LiveOp T S)) :
    runOps (⟨some v, s, some c⟩ : ScopeGuard T S R) ops =
      some (⟨some (finalValue v ops), finalState s ops, some c⟩, []) := by
  induction ops generalizing v s with
  | nil => rfl
  | cons op ops ih =>
    cases op with
    | setState s2 =>
        simp [runOps, applyOp, ScopeGuard.set_state, ih, finalValue, finalState]
    | read =>
        simp [runOps, applyOp, ScopeGuard.deref, ih, finalValue, finalState]
    | mutate f =>
        simp [runOps, applyOp, ScopeGuard.deref_mut, ih, finalValue, finalState]

/-- Running live operations from a freshly constructed guard. -/
theorem runOps_new (v : T) (s : S) (c : T → S → R) (ops : List (LiveOp T S)) :
    runOps (ScopeGuard.new v s c) ops =
      some (⟨some (finalValue v ops), finalState s ops, some c⟩, []) :=
  runOps_occupied v s c ops

/-- The complete invocation trace of a lifecycle: exactly one invocation,
carrying the final value and final state. -/
theorem lifecycle_trace (v : T) (s : S) (c : T → S → R)
    (ops : List (LiveOp T S)) :
    lifecycle v s c ops =
      some [⟨finalValue v ops, finalState s ops,
             c (finalValue v ops) (finalState s ops)⟩] := by
  simp [lifecycle, runOps_new, ScopeGuard.drop]

/-- The final state is the last `setState` argument, with the initial state
as default. -/
theorem finalState_eq_getLastD (s : S) (ops : List (LiveOp T S)) :
    finalState s ops = (statesSet ops).getLastD s := by
  induction ops generalizing s with
  | nil => rfl
  | cons op ops ih =>
    cases op with
    | setState s2 =>
        show finalState s2 ops = (s2 :: statesSet ops).getLastD s
        rw [List.getLastD_cons]
        exact ih s2
    | read => simpa [finalState, statesSet] using ih s
    | mutate f => simpa [finalState, statesSet] using ih s

/-- The final value after appended operation lists. -/
theorem finalValue_append (v : T) (ops1 ops2 : List (LiveOp T S)) :
    finalValue v (ops1 ++ ops2) = finalValue (finalValue v ops1) ops2 := by
  induction ops1 generalizing v with
  | nil => rfl
  | cons op ops ih => cases op <;> simp [finalValue, ih]

/-- The final state after appended operation lists. -/
theorem finalState_append (s : S) (ops1 ops2 : List (LiveOp T S)) :
    finalState s (ops1 ++ ops2) = finalState (finalState s ops1) ops2 := by
  induction ops1 generalizing s with
  | nil => rfl
  | cons op ops ih => cases op <;> simp [finalState, ih]

/-- Embeds the type alias `DismissableScopeGuard<F> = ScopeGuard<(), bool, F>`
from src/dismissable.rs; the caller's `FnOnce()` closure is embedded as
`Unit → A` and the wrapping closure's result type is `Option A`. -/
abbrev DismissableScopeGuard (R : Type) := ScopeGuard Unit Bool R

/-- Embeds the type alias `DismissibleScopeGuard<T, F> = ScopeGuard<T, bool, F>`
from src/dismissible.rs. -/
abbrev DismissibleScopeGuard (T R : Type) := ScopeGuard T Bool R

/-- Embeds `new_dismissable(callback)` from src/dismissable.rs:
`ScopeGuard::new((), true, |_, state| if *state { callback() })`.
The branch that calls the caller's closure yields `some (callback ())`,
the no-op branch yields `none`. -/
def new_dismissable (callback : Unit → A) : DismissableScopeGuard (Option A) :=
  ScopeGuard.new () true (fun _ state => if state then some (callback ()) else none)

/-- Embeds `DismissableScopeGuard::dismiss`: `self.set_state(false)`. -/
def DismissableScopeGuard.dismiss (g : DismissableScopeGuard R) :
    DismissableScopeGuard R :=
  g.set_state false

/-- Embeds `new_dismissible(value, callback)` from src/dismissible.rs:
`ScopeGuard::new(value, true, |value, state| if *state { callback(value) })`.
The branch that calls the caller's closure yields `some (callback value)`,
the no-op branch yields `none`. -/
def new_dismissible (value : T) (callback : T → A) :
    DismissibleScopeGuard T (Option A) :=
  ScopeGuard.new value true
    (fun value state => if state then some (callback value) else none)

/-- Embeds `DismissibleScopeGuard::dismiss`: `self.set_state(false)`. -/
def DismissibleScopeGuard.dismiss (g : DismissibleScopeGuard T R) :
    DismissibleScopeGuard T R :=
  g.set_state false

/-- Claim C1: a guard constructed by `new(v, s, c)` invokes `c` exactly once,
at destruction time and at no other time (the live operations perform no
invocation), with the value and state held by the guard at the moment
destruction begins; in particular a guard dropped immediately after
construction invokes `c` once with the original value and original state. -/
theorem claim_C1 (v : T) (s : S) (c : T → S → R) (ops : List (LiveOp T S)) :
    runOps (ScopeGuard.new v s c) ops =
      some (⟨some (finalValue v ops), finalState s ops, some c⟩, []) ∧
    lifecycle v s c ops =
      some [⟨finalValue v ops, finalState s ops,
             c (finalValue v ops) (finalState s ops)⟩] ∧
    lifecycle v s c [] = some [⟨v, s, c v s⟩] :=
  ⟨runOps_new v s c ops, lifecycle_trace v s c ops, lifecycle_trace v s c []⟩

/-- Claim C2: the callback invoked at destruction observes exactly the state
passed to the last `set_state` call before destruction (the construction-time
state if `set_state` was never called); earlier states in the sequence are
unobservable, e.g. after `set_state s1; set_state s2` the callback sees
`s2`. -/
theorem claim_C2 (v : T) (s s1 s2 : S) (c : T → S → R)
    (ops : List (LiveOp T S)) :
    lifecycle v s c ops =
      some [⟨finalValue v ops, (statesSet ops).getLastD s,
             c (finalValue v ops) ((statesSet ops).getLastD s)⟩] ∧
    lifecycle v s c [LiveOp.setState s1, LiveOp.setState s2] =
      some [⟨v, s2, c v s2⟩] ∧
    lifecycle v s c [] = some [⟨v, s, c v s⟩] := by
  refine ⟨?_, lifecycle_trace v s c _, lifecycle_trace v s c []⟩
  rw [← finalState_eq_getLastD]
  exact lifecycle_trace v s c ops

/-- Claim C3: every mutation through the guard's mutable access before
destruction is visible to the callback: it receives the value as it stands
after the most recent mutation, not the construction-time value; e.g.
mutating the value from 1 to 2 makes the callback receive 2. -/
theorem claim_C3 (v : T) (s : S) (c : T → S → R) (ops : List (LiveOp T S))
    (f : T → T) (c2 : Nat → S → R) :
    lifecycle v s c (ops ++ [LiveOp.mutate f]) =
      some [⟨f (finalValue v ops), finalState s ops,
             c (f (finalValue v ops)) (finalState s ops)⟩] ∧
    lifecycle (1 : Nat) s c2 [LiveOp.mutate fun _ => 2] =
      some [⟨2, s, c2 2 s⟩] := by
  constructor
  · have h := lifecycle_trace v s c (ops ++ [LiveOp.mutate f])
    rw [finalValue_append, finalState_append] at h
    simpa [finalValue, finalState] using h
  · exact lifecycle_trace 1 s c2 _

/-- Claim C4: at every reachable point before destruction both the value
slot and the callback slot are occupied; every live operation preserves
this, so `deref`, `deref_mut` and `drop` never reach their empty-slot
branches and no live operation can fail. -/
theorem claim_C4 (v : T) (s : S) (c : T → S → R) (ops : List (LiveOp T S))
    (f : T → T) :
    runOps (ScopeGuard.new v s c) ops =
      some (⟨some (finalValue v ops), finalState s ops, some c⟩, []) ∧
    (⟨some (finalValue v ops), finalState s ops, some c⟩ :
        ScopeGuard T S R).value.isSome = true ∧
    (⟨some (finalValue v ops), finalState s ops, some c⟩ :
        ScopeGuard T S R).callback.isSome = true ∧
    ScopeGuard.deref
        (⟨some (finalValue v ops), finalState s ops, some c⟩ :
          ScopeGuard T S R) = some (finalValue v ops) ∧
    ScopeGuard.deref_mut
        (⟨some (finalValue v ops), finalState s ops, some c⟩ :
          ScopeGuard T S R) f =
      some ⟨some (f (finalValue v ops)), finalState s ops, some c⟩ ∧
    (ScopeGuard.drop
        (⟨some (finalValue v ops), finalState s ops, some c⟩ :
          ScopeGuard T S R)).isSome = true :=
  ⟨runOps_new v s c ops, rfl, rfl, rfl, rfl, rfl⟩

/-- Claim C5: `set_state(s2)` replaces the state with `s2` and changes
nothing else: value and callback are unchanged and no callback invocation
is performed. -/
theorem claim_C5 (g : ScopeGuard T S R) (s2 : S) :
    (g.set_state s2).state = s2 ∧
    (g.set_state s2).value = g.value ∧
    (g.set_state s2).callback = g.callback ∧
    applyOp g (LiveOp.setState s2) = some (g.set_state s2, []) :=
  ⟨rfl, rfl, rfl, rfl⟩

/-- Claim C6: a guard built by `new_dismissable(c)` holds value unit and
initial state `true`; at drop the caller's callback `c` runs iff the state
is still `true` (so it runs when `dismiss` was never called, and the wrapper
branch is a no-op when dismissed). -/
theorem claim_C6 (c : Unit → A) (b : Bool) :
    (new_dismissable c).value = some () ∧
    (new_dismissable c).state = true ∧
    ((new_dismissable c).set_state b).drop =
      some (⟨none, b, none⟩, [⟨(), b, if b then some (c ()) else none⟩]) ∧
    (new_dismissable c).drop =
      some (⟨none, true, none⟩, [⟨(), true, some (c ())⟩]) ∧
    (DismissableScopeGuard.dismiss (new_dismissable c)).drop =
      some (⟨none, false, none⟩, [⟨(), false, none⟩]) :=
  ⟨rfl, rfl, rfl, rfl, rfl⟩

/-- Claim C7: a guard built by `new_dismissible(v, c)` invokes the caller's
callback `c` with the final wrapped value at drop if never dismissed;
when the state is `false` at drop, `c` is not invoked and the value is not
forwarded anywhere. -/
theorem claim_C7 (v : T) (c : T → A) (ops : List (LiveOp T Bool)) :
    runOps (new_dismissible v c) ops =
      some (⟨some (finalValue v ops), finalState true ops,
             some fun value state =>
               if state then some (c value) else none⟩, []) ∧
    ScopeGuard.drop
        (⟨some (finalValue v ops), finalState true ops,
          some fun value state => if state then some (c value) else none⟩ :
          DismissibleScopeGuard T (Option A)) =
      some (⟨none, finalState true ops, none⟩,
            [⟨finalValue v ops, finalState true ops,
              if finalState true ops then some (c (finalValue v ops))
              else none⟩]) ∧
    (DismissibleScopeGuard.dismiss (new_dismissible v c)).drop =
      some (⟨none, false, none⟩, [⟨v, false, none⟩]) :=
  ⟨runOps_occupied v true _ ops, rfl, rfl⟩

/-- Claim C8: read and mutable access on a live guard return exactly the
currently wrapped value, consistent with the most recent mutation;
immediately after `new(v, s, c)` read access yields `v` and the state field
holds `s`. -/
theorem claim_C8 (v : T) (s : S) (c : T → S → R) (ops : List (LiveOp T S))
    (f : T → T) :
    (ScopeGuard.new v s c).deref = some v ∧
    (ScopeGuard.new v s c).state = s ∧
    (ScopeGuard.new v s c).deref_mut f = some ⟨some (f v), s, some c⟩ ∧
    runOps (ScopeGuard.new v s c) ops =
      some (⟨some (finalValue v ops), finalState s ops, some c⟩, []) ∧
    ScopeGuard.deref
        (⟨some (finalValue v ops), finalState s ops, some c⟩ :
          ScopeGuard T S R) = some (finalValue v ops) ∧
    ScopeGuard.deref_mut
        (⟨some (finalValue v ops), finalState s ops, some c⟩ :
          ScopeGuard T S R) f =
      some ⟨some (f (finalValue v ops)), finalState s ops, some c⟩ :=
  ⟨rfl, rfl, rfl, runOps_new v s c ops, rfl, rfl⟩

/-- Claim C9: `dismiss` is idempotent for both the dismissable and the
dismissible guard: calling it twice equals calling it once, and the state
after a `dismiss` is `false`. -/
theorem claim_C9 (g : DismissableScopeGuard R) (g2 : DismissibleScopeGuard T R) :
    DismissableScopeGuard.dismiss (DismissableScopeGuard.dismiss g) =
      DismissableScopeGuard.dismiss g ∧
    (DismissableScopeGuard.dismiss g).state = false ∧
    DismissibleScopeGuard.dismiss (DismissibleScopeGuard.dismiss g2) =
      DismissibleScopeGuard.dismiss g2 ∧
    (DismissibleScopeGuard.dismiss g2).state = false :=
  ⟨rfl, rfl, rfl, rfl⟩

/-- Claim C10: dismissal is reversible: the inherited `set_state` is still
callable on a dismissed guard, and `set_state(true)` after `dismiss()`
re-arms it so the caller's callback fires at drop, for both wrappers. -/
theorem claim_C10 (v : T) (c : T → A) (c0 : Unit → A) :
    ((DismissibleScopeGuard.dismiss (new_dismissible v c)).set_state
        true).drop =
      some (⟨none, true, none⟩, [⟨v, true, some (c v)⟩]) ∧
    ((DismissableScopeGuard.dismiss (new_dismissable c0)).set_state
        true).drop =
      some (⟨none, true, none⟩, [⟨(), true, some (c0 ())⟩]) :=
  ⟨rfl, rfl⟩

end StatedScopeGuard
